import Mathlib

/-!
Shallow embedding of the camera-dataset generation pipeline
(blender-gen-dataset): camera intrinsics/extrinsics derivation,
scene bounding-box and normalization plugins, and the COLMAP,
NSVF and IDR dataset exporters.

Real-valued computations from the Python sources are modelled over `ℝ`
(or `ℚ` where the arithmetic is rational), file contents as explicit
data, and directory scans as finite sets of view indices.
-/

namespace CameraExtrinsics

/-- Entries of 3-vectors, as in `mathutils.Vector`. -/
abbrev Vec3 := Fin 3 → ℝ

/-- 3×3 real matrices, as in `mathutils.Matrix`. -/
abbrev Mat3 := Matrix (Fin 3) (Fin 3) ℝ

/-- 3×4 real matrices (the `RT` output shape). -/
abbrev Mat3x4 := Matrix (Fin 3) (Fin 4) ℝ

/-- A camera object as seen by `get_3x4_RT_matrix_from_blender`:
`matrix_world.decompose()[0:2]` yields the evaluated world location and
rotation (the rotation quaternion's matrix is the camera-to-world
rotation); the raw local transform fields are carried along to express
that the function never reads them. -/
structure Camera where
  location : Vec3
  rotation : Mat3
  localLocation : Vec3
  localRotation : Mat3

/-- The fixed Blender-camera-to-CV axis flip matrix `R_bcam2cv`
from `src/plugins/camera_extrinsics.py`. -/
def R_bcam2cv : Mat3 := !![1, 0, 0; 0, -1, 0; 0, 0, -1]

/-- `get_3x4_RT_matrix_from_blender` (src/plugins/camera_extrinsics.py):
transpose the evaluated world rotation, negate-and-rotate the evaluated
world location, convert both to the CV convention with `R_bcam2cv`, and
pack them into a 3×4 matrix. -/
def get_3x4_RT_matrix_from_blender (cam : Camera) : Mat3x4 :=
  let R_world2bcam : Mat3 := cam.rotation.transpose
  let T_world2bcam : Vec3 := -(R_world2bcam.mulVec cam.location)
  let R_world2cv : Mat3 := R_bcam2cv * R_world2bcam
  let T_world2cv : Vec3 := R_bcam2cv.mulVec T_world2bcam
  Matrix.of fun i j =>
    if h : (j : ℕ) < 3 then R_world2cv i ⟨j, h⟩ else T_world2cv i

end CameraExtrinsics

namespace CameraIntrinsics

/-- Blender `sensor_fit` enumeration. -/
inductive SensorFit where
  | AUTO
  | HORIZONTAL
  | VERTICAL
deriving DecidableEq

/-- Blender camera types relevant to the intrinsics deriver. -/
inductive CameraType where
  | PERSP
  | ORTHO
  | PANO
deriving DecidableEq

/-- The camera-data fields read by
`get_calibration_matrix_K_from_blender`. -/
structure CameraData where
  type : CameraType
  lens : ℚ
  sensor_width : ℚ
  sensor_height : ℚ
  shift_x : ℚ
  shift_y : ℚ
  sensor_fit : SensorFit

/-- The `scene.render` fields read by
`get_calibration_matrix_K_from_blender`. -/
structure RenderSettings where
  resolution_percentage : ℚ
  resolution_x : ℚ
  resolution_y : ℚ
  pixel_aspect_x : ℚ
  pixel_aspect_y : ℚ

/-- The derived pixel-space intrinsics `fx, fy, cx, cy`. -/
structure KParams where
  fx : ℚ
  fy : ℚ
  cx : ℚ
  cy : ℚ
deriving DecidableEq

/-- `get_sensor_size` (BKE_camera_sensor_size port in
src/plugins/camera_intrinsics.py). -/
def get_sensor_size (fit : SensorFit) (sensor_x sensor_y : ℚ) : ℚ :=
  if fit = SensorFit.VERTICAL then sensor_y else sensor_x

/-- `get_sensor_fit` (BKE_camera_sensor_fit port in
src/plugins/camera_intrinsics.py). -/
def get_sensor_fit (fit : SensorFit) (size_x size_y : ℚ) : SensorFit :=
  if fit = SensorFit.AUTO then
    if size_x ≥ size_y then SensorFit.HORIZONTAL else SensorFit.VERTICAL
  else fit

/-- `get_calibration_matrix_K_from_blender`
(src/plugins/camera_intrinsics.py, identical copy in
src/plugins/camera_projection_matrix.py): derive `fx, fy, cx, cy` from
camera data and render settings, or raise for non-perspective cameras. -/
def get_calibration_matrix_K_from_blender (camd : CameraData)
    (render : RenderSettings) : Except String KParams :=
  if camd.type ≠ CameraType.PERSP then
    Except.error "Non-perspective cameras not supported"
  else
    let f_in_mm := camd.lens
    let scale := render.resolution_percentage / 100
    let resolution_x_in_px := scale * render.resolution_x
    let resolution_y_in_px := scale * render.resolution_y
    let sensor_size_in_mm :=
      get_sensor_size camd.sensor_fit camd.sensor_width camd.sensor_height
    let fit := get_sensor_fit camd.sensor_fit
      (render.pixel_aspect_x * resolution_x_in_px)
      (render.pixel_aspect_y * resolution_y_in_px)
    let pixel_aspect_ratio := render.pixel_aspect_y / render.pixel_aspect_x
    let view_fac_in_px :=
      if fit = SensorFit.HORIZONTAL then resolution_x_in_px
      else pixel_aspect_ratio * resolution_y_in_px
    let pixel_size_mm_per_px := sensor_size_in_mm / f_in_mm / view_fac_in_px
    let s_u := 1 / pixel_size_mm_per_px
    let s_v := 1 / pixel_size_mm_per_px / pixel_aspect_ratio
    let u_0 := resolution_x_in_px / 2 - camd.shift_x * view_fac_in_px
    let v_0 := resolution_y_in_px / 2 +
      camd.shift_y * view_fac_in_px / pixel_aspect_ratio
    Except.ok ⟨s_u, s_v, u_0, v_0⟩

/-- The resolution rescaling of claim C9: double `resolution_x` and
`resolution_y`, halve `resolution_percentage`. -/
def doubleResHalfScale (render : RenderSettings) : RenderSettings :=
  { render with
    resolution_percentage := render.resolution_percentage / 2
    resolution_x := 2 * render.resolution_x
    resolution_y := 2 * render.resolution_y }

end CameraIntrinsics

namespace ScenePlugins

/-- Python `re.search(pattern, string)`, modelled for metacharacter-free
(literal) patterns: such a pattern matches somewhere in the string iff it
occurs as a contiguous substring. Returns `true` iff a match is found.
Note the argument order: the pattern comes first, as in Python. -/
def reSearch (pattern s : String) : Bool :=
  decide (pattern.toList <:+: s.toList)

/-- A scene object as read by the `BoundingBox` and `NormalizationMatrix`
plugins: a name, the `matrix_world` 4×4 transform, and the eight
local-space `bound_box` corners.  Scalars are `ℚ` (every finite float is
a rational, so this loses no generality of the inputs). -/
structure SceneObject where
  name : String
  matrix_world : Matrix (Fin 4) (Fin 4) ℚ
  bound_box : Fin 8 → (Fin 3 → ℚ)

/-- `mathutils` 4×4-matrix-times-3-vector: rotate/scale by the upper-left
3×3 block and translate by the fourth column. -/
def applyAffine (M : Matrix (Fin 4) (Fin 4) ℚ) (v : Fin 3 → ℚ) :
    Fin 3 → ℚ := fun i =>
  M (Fin.castSucc i) 0 * v 0 + M (Fin.castSucc i) 1 * v 1 +
    M (Fin.castSucc i) 2 * v 2 + M (Fin.castSucc i) 3

/-- The world-space corners `mat @ Vector(corner)` of one object's
bounding volume. -/
def worldCorners (o : SceneObject) : List (Fin 3 → ℚ) :=
  (List.finRange 8).map fun k => applyAffine o.matrix_world (o.bound_box k)

/-- The loop filter shared verbatim by `BoundingBox.on_scene_created` and
`NormalizationMatrix.on_scene_created`: an object is skipped when
`re.search(obj.name, exclude)` finds a match, i.e. the object's NAME is
used as the regex pattern and the exclude pattern as the searched
string. -/
def skipsObject (exclude : String) (o : SceneObject) : Bool :=
  reSearch o.name exclude

/-- The objects surviving the exclusion filter, in scene order. -/
def includedObjects (exclude : String) (objects : List SceneObject) :
    List SceneObject :=
  objects.filter fun o => !(skipsObject exclude o)

/-- The content of one `bounding_box.txt` line. -/
structure BBoxLine where
  x_min : ℚ
  y_min : ℚ
  z_min : ℚ
  x_max : ℚ
  y_max : ℚ
  z_max : ℚ
  voxel_size : ℚ
deriving DecidableEq

/-- `BoundingBox.on_scene_created` (src/plugins/bounding_box.py): fold
world-space bound-box corners of every non-skipped object into running
min/max; if no object survives the filter (`found` stays false) no file
is written (`none`); the voxel size falls back to `max_dim / 128` when
the configured value is absent or falsy. -/
def boundingBoxRun (objects : List SceneObject) (exclude : String)
    (voxel_cfg : Option ℚ) : Option BBoxLine :=
  let objs := includedObjects exclude objects
  match objs.flatMap worldCorners with
  | [] => none
  | c :: rest =>
      let x_min := rest.foldl (fun m p => min m (p 0)) (c 0)
      let y_min := rest.foldl (fun m p => min m (p 1)) (c 1)
      let z_min := rest.foldl (fun m p => min m (p 2)) (c 2)
      let x_max := rest.foldl (fun m p => max m (p 0)) (c 0)
      let y_max := rest.foldl (fun m p => max m (p 1)) (c 1)
      let z_max := rest.foldl (fun m p => max m (p 2)) (c 2)
      let max_dim := max (x_max - x_min) (max (y_max - y_min) (z_max - z_min))
      let voxel_size :=
        match voxel_cfg with
        | some v => if v = 0 then max_dim / 128 else v
        | none => max_dim / 128
      some ⟨x_min, y_min, z_min, x_max, y_max, z_max, voxel_size⟩

/-- The predicate the spec states for the exclusion policy: an object is
skipped exactly when its name matches the exclusion pattern (pattern
first, name second in `re.search` terms). Stated from the spec's words,
to be compared with `skipsObject`. -/
def specSkipsObject (exclude : String) (o : SceneObject) : Bool :=
  reSearch exclude o.name

end ScenePlugins

namespace NormalizationMatrix

open ScenePlugins

/-- 4×4 real matrices. -/
abbrev Mat4 := Matrix (Fin 4) (Fin 4) ℝ

/-- Lines 42–54 of src/plugins/normalization_matrix.py: from the box
extremes compute the half-extents, the half-diagonal `R` (`1.0` when all
three half-extents are zero, per the Python truthiness test
`if (hx or hy or hz)`), the scale `s = 1.0 / R`, and the uniform scale
matrix. -/
noncomputable def scaleMatFromBox
    (x_min y_min z_min x_max y_max z_max : ℝ) : Mat4 :=
  let hx := (x_max - x_min) / 2
  let hy := (y_max - y_min) / 2
  let hz := (z_max - z_min) / 2
  let R := if hx ≠ 0 ∨ hy ≠ 0 ∨ hz ≠ 0 then
    Real.sqrt (hx * hx + hy * hy + hz * hz) else 1
  let s := 1 / R
  !![s, 0, 0, 0; 0, s, 0, 0; 0, 0, s, 0; 0, 0, 0, 1]

/-- `NormalizationMatrix.on_scene_created`
(src/plugins/normalization_matrix.py): same filter and min/max fold as
the bounding-box plugin (with `re.search(obj.name, self._exclude)`),
then the scale matrix of the resulting box; `none` (warning, no file)
when no object survives the filter. -/
noncomputable def onSceneCreated (objects : List SceneObject)
    (exclude : String) : Option Mat4 :=
  let objs := includedObjects exclude objects
  match objs.flatMap worldCorners with
  | [] => none
  | c :: rest =>
      let min_x := rest.foldl (fun m p => min m (p 0)) (c 0)
      let min_y := rest.foldl (fun m p => min m (p 1)) (c 1)
      let min_z := rest.foldl (fun m p => min m (p 2)) (c 2)
      let max_x := rest.foldl (fun m p => max m (p 0)) (c 0)
      let max_y := rest.foldl (fun m p => max m (p 1)) (c 1)
      let max_z := rest.foldl (fun m p => max m (p 2)) (c 2)
      some (scaleMatFromBox min_x min_y min_z max_x max_y max_z)

/-- Apply a 4×4 matrix to a 3-point the way `mathutils` does
(homogeneous coordinate 1, fourth row dropped). -/
noncomputable def applyMat4 (M : Mat4) (p : Fin 3 → ℝ) : Fin 3 → ℝ :=
  fun i =>
    M (Fin.castSucc i) 0 * p 0 + M (Fin.castSucc i) 1 * p 1 +
      M (Fin.castSucc i) 2 * p 2 + M (Fin.castSucc i) 3

/-- Squared Euclidean norm of a 3-vector. -/
noncomputable def sqNorm (v : Fin 3 → ℝ) : ℝ :=
  v 0 ^ 2 + v 1 ^ 2 + v 2 ^ 2

/-- One of the 8 corners of an axis-aligned box, selected per axis by a
Boolean (`true` picks the max side). -/
noncomputable def boxCorner (x_min y_min z_min x_max y_max z_max : ℝ)
    (e₁ e₂ e₃ : Bool) : Fin 3 → ℝ :=
  ![if e₁ then x_max else x_min,
    if e₂ then y_max else y_min,
    if e₃ then z_max else z_min]

/-- The center of an axis-aligned box. -/
noncomputable def boxCenter (x_min y_min z_min x_max y_max z_max : ℝ) :
    Fin 3 → ℝ :=
  ![(x_min + x_max) / 2, (y_min + y_max) / 2, (z_min + z_max) / 2]

/-- The half-diagonal length `R` of an axis-aligned box, the quantity
the spec names, with the all-zero-extent degenerate box treated as
`R = 1.0`. -/
noncomputable def halfDiagonalOrOne
    (x_min y_min z_min x_max y_max z_max : ℝ) : ℝ :=
  let hx := (x_max - x_min) / 2
  let hy := (y_max - y_min) / 2
  let hz := (z_max - z_min) / 2
  if hx ≠ 0 ∨ hy ≠ 0 ∨ hz ≠ 0 then Real.sqrt (hx ^ 2 + hy ^ 2 + hz ^ 2)
  else 1

end NormalizationMatrix

namespace CompatColmap

abbrev Mat3 := Matrix (Fin 3) (Fin 3) ℝ
abbrev Mat3x4 := Matrix (Fin 3) (Fin 4) ℝ
abbrev Mat4 := Matrix (Fin 4) (Fin 4) ℝ

/-- `np.sign` on reals. -/
noncomputable def npSign (x : ℝ) : ℝ :=
  if 0 < x then 1 else if x < 0 then -1 else 0

/-- `load_extrinsics` (src/compat/to_colmap/to_colmap.py): embed the
3×4 file content into `np.eye(4)` by overwriting the top three rows. -/
def load_extrinsics (m : Mat3x4) : Mat4 :=
  Matrix.of fun i j =>
    if h : (i : ℕ) < 3 then m ⟨i, h⟩ j else if i = j then 1 else 0

/-- `qvec_from_matrix` (src/compat/to_colmap/to_colmap.py): the
trace-based COLMAP quaternion `(qw, qx, qy, qz)` with signs resolved
from off-diagonal differences. -/
noncomputable def qvec_from_matrix (R : Mat3) : Fin 4 → ℝ :=
  let qw := Real.sqrt (max 0 (1 + R 0 0 + R 1 1 + R 2 2)) / 2
  let qx := npSign (R 2 1 - R 1 2) *
    Real.sqrt (max 0 (1 + R 0 0 - R 1 1 - R 2 2)) / 2
  let qy := npSign (R 0 2 - R 2 0) *
    Real.sqrt (max 0 (1 - R 0 0 + R 1 1 - R 2 2)) / 2
  let qz := npSign (R 1 0 - R 0 1) *
    Real.sqrt (max 0 (1 - R 0 0 - R 1 1 + R 2 2)) / 2
  ![qw, qx, qy, qz]

/-- The files of one input batch directory, as view-index sets plus the
3×4 content of each `<idx>_camera_extrinsics.txt`. -/
structure Batch where
  rgb : Finset ℕ
  mask : Finset ℕ
  extr : Finset ℕ
  extrMat : ℕ → Mat3x4

/-- One block of `images.txt`: image id, quaternion, translation,
camera id, and the view index the image name encodes. -/
structure ImageEntry where
  image_id : ℕ
  qvec : Fin 4 → ℝ
  tvec : Fin 3 → ℝ
  camera_id : ℕ
  viewIdx : ℕ

/-- `sorted(entries)`: the gathered view indices in ascending order. -/
def gatherIndices (b : Batch) : List ℕ :=
  (b.rgb ∪ b.mask ∪ b.extr).sort (· ≤ ·)

/-- The per-view loop of `main` (src/compat/to_colmap/to_colmap.py):
skip (with one warning) any index missing its rgb or extrinsics file;
otherwise emit an `images.txt` block whose rotation/translation come
from the loaded 4×4 extrinsics and bump `img_id`. Returns the blocks
and the number of skip warnings. -/
noncomputable def processViews (b : Batch) :
    List ℕ → ℕ → List ImageEntry × ℕ
  | [], _ => ([], 0)
  | idx :: rest, img_id =>
    if idx ∈ b.rgb ∧ idx ∈ b.extr then
      let Rt := load_extrinsics (b.extrMat idx)
      let R : Mat3 := Rt.submatrix Fin.castSucc Fin.castSucc
      let q := qvec_from_matrix R
      let t : Fin 3 → ℝ := fun i => Rt (Fin.castSucc i) 3
      let step := processViews b rest (img_id + 1)
      (⟨img_id, q, t, 1, idx⟩ :: step.1, step.2)
    else
      let step := processViews b rest img_id
      (step.1, step.2 + 1)

/-- The observable output of `main`: `images.txt` blocks in write order,
skip-warning count, and the (always empty) `points3D.txt` content. -/
structure Output where
  entries : List ImageEntry
  skipWarnings : ℕ
  points3D : List String

/-- `main` (src/compat/to_colmap/to_colmap.py): write `cameras.txt`, an
empty `points3D.txt`, then one `images.txt` block per complete view in
ascending index order (camera id 1, the id assigned by the fresh
database). -/
noncomputable def main (b : Batch) : Output :=
  let step := processViews b (gatherIndices b) 0
  ⟨step.1, step.2, []⟩

/-- The numeric fields of one written `images.txt` line, in file order:
`IMAGE_ID QW QX QY QZ TX TY TZ CAMERA_ID` (the name field is textual
and not part of the numeric round trip). -/
noncomputable def serializeEntry (e : ImageEntry) : List ℝ :=
  [(e.image_id : ℝ), e.qvec 0, e.qvec 1, e.qvec 2, e.qvec 3,
    e.tvec 0, e.tvec 1, e.tvec 2, (e.camera_id : ℝ)]

/-- Re-reading one `images.txt` line: recover the quaternion and the
translation from the nine numeric fields. -/
noncomputable def parseQvecTvec :
    List ℝ → Option ((Fin 4 → ℝ) × (Fin 3 → ℝ))
  | [_, q0, q1, q2, q3, t0, t1, t2, _] =>
      some (![q0, q1, q2, q3], ![t0, t1, t2])
  | _ => none

/-- The rotation part of a 3×4 world-to-camera matrix. -/
def rotOf (m : Mat3x4) : Mat3 := m.submatrix id Fin.castSucc

/-- The translation column of a 3×4 world-to-camera matrix. -/
def transOf (m : Mat3x4) : Fin 3 → ℝ := fun i => m i 3

/-- A concrete one-view batch (view 0 with render and extrinsics
`[I | (0,0,0)]`) used to instantiate the round-trip statement. -/
noncomputable def sampleBatch : Batch :=
  ⟨{0}, ∅, {0}, fun _ => !![1, 0, 0, 0; 0, 1, 0, 0; 0, 0, 1, 0]⟩

/-- The single `images.txt` block the exporter writes for
`sampleBatch`. -/
noncomputable def sampleEntry : ImageEntry :=
  ⟨0,
    qvec_from_matrix
      ((load_extrinsics !![1, 0, 0, 0; 0, 1, 0, 0; 0, 0, 1, 0]).submatrix
        Fin.castSucc Fin.castSucc),
    fun i =>
      load_extrinsics !![1, 0, 0, 0; 0, 1, 0, 0; 0, 0, 1, 0]
        (Fin.castSucc i) 3,
    1, 0⟩

end CompatColmap

namespace ScriptsColmap

open CompatColmap (Mat3 Mat3x4 Mat4 npSign)

/-- `load_inverted_projection` (src/scripts/to_colmap/to_colmap.py):
embeds the 3×4 file content into `np.eye(4)` and returns it — the
`np.linalg.inv` line sits after the first `return` and never runs. -/
def load_inverted_projection (m : Mat3x4) : Mat4 :=
  Matrix.of fun i j =>
    if h : (i : ℕ) < 3 then m ⟨i, h⟩ j else if i = j then 1 else 0

/-- `qvec_tvec_from_matrix` (src/scripts/to_colmap/to_colmap.py): the
same trace-based quaternion, paired with the translation `-R @ t`
computed from the matrix's own rotation and translation parts. -/
noncomputable def qvec_tvec_from_matrix (M : Mat4) :
    (Fin 4 → ℝ) × (Fin 3 → ℝ) :=
  let R : Mat3 := M.submatrix Fin.castSucc Fin.castSucc
  let t : Fin 3 → ℝ := fun i => M (Fin.castSucc i) 3
  let qw := Real.sqrt (max 0 (1 + R 0 0 + R 1 1 + R 2 2)) / 2
  let qx := npSign (R 2 1 - R 1 2) *
    Real.sqrt (max 0 (1 + R 0 0 - R 1 1 - R 2 2)) / 2
  let qy := npSign (R 0 2 - R 2 0) *
    Real.sqrt (max 0 (1 - R 0 0 + R 1 1 - R 2 2)) / 2
  let qz := npSign (R 1 0 - R 0 1) *
    Real.sqrt (max 0 (1 - R 0 0 - R 1 1 + R 2 2)) / 2
  (![qw, qx, qy, qz], -(R.mulVec t))

end ScriptsColmap

namespace ScriptsNsvf

/-- One input batch for src/scripts/to_nsvf_dataset/to_nsvf_dataset.py:
which shared files exist and which view indices have masked images and
projection JSON files. -/
structure Batch where
  hasIntrinsics : Bool
  hasBBox : Bool
  maskIdx : Finset ℕ
  projIdx : Finset ℕ

/-- The observable effects of a run of the plain NSVF exporter. -/
structure Run where
  intrinsicsCopied : Bool
  bboxCopied : Bool
  copyWarnings : ℕ
  fatal : Bool
  rgbWritten : Finset ℕ
  poseWritten : Finset ℕ
  skipWarnings : Finset ℕ

/-- `main` (src/scripts/to_nsvf_dataset/to_nsvf_dataset.py): copy
intrinsics and bounding box when present (a `[WARN]` print each when
absent, never fatal); exit fatally only when no masked image exists;
otherwise copy `rgb/<idx>.png` for every masked-image index and write
`pose/<idx>.txt` only for those whose projection file exists, warning
per missing projection. -/
def run (b : Batch) : Run :=
  let copyW := (if b.hasIntrinsics then 0 else 1) +
    (if b.hasBBox then 0 else 1)
  if b.maskIdx = ∅ then
    { intrinsicsCopied := b.hasIntrinsics
      bboxCopied := b.hasBBox
      copyWarnings := copyW
      fatal := true
      rgbWritten := ∅
      poseWritten := ∅
      skipWarnings := ∅ }
  else
    { intrinsicsCopied := b.hasIntrinsics
      bboxCopied := b.hasBBox
      copyWarnings := copyW
      fatal := false
      rgbWritten := b.maskIdx
      poseWritten := b.maskIdx ∩ b.projIdx
      skipWarnings := b.maskIdx \ b.projIdx }

end ScriptsNsvf

/-- Python 3 `round` on a rational: round half to even. -/
def pyRound (q : ℚ) : ℤ :=
  let f := ⌊q⌋
  let r := q - f
  if r < 1 / 2 then f
  else if 1 / 2 < r then f + 1
  else if f % 2 = 0 then f else f + 1

namespace TntNsvf

/-- One input batch for
src/compat/to_nsvf_dataset/to_nsvf_tanks_and_temples_dataset.py. -/
structure Batch where
  hasBBox : Bool
  hasIntrinsics : Bool
  maskIdx : Finset ℕ
  projIdx : Finset ℕ

/-- `gather_views`: the indices having both a masked image and a
projection file (incomplete entries are dropped). -/
def completeViews (b : Batch) : Finset ℕ := b.maskIdx ∩ b.projIdx

/-- `n_train = int(round(n_total * args.split))`. -/
def nTrain (b : Batch) (split : ℚ) : ℕ :=
  (pyRound ((completeViews b).card * split)).toNat

/-- The observable output of a successful Tanks&Temples NSVF export. -/
structure Output where
  train : Finset ℕ
  test : Finset ℕ
  bboxCopied : Bool

/-- `main` (src/compat/to_nsvf_dataset/to_nsvf_tanks_and_temples_dataset.py)
together with its `parse_args` guard: `sys.exit` on an out-of-range
split, on a missing `bounding_box.txt`, on missing intrinsics, and on
zero complete views; otherwise split the complete views into the
sampled train set (`random.sample(indices, n_train)`, modelled by the
`sample` argument) and its complement. -/
def main (b : Batch) (split : ℚ) (sample : Finset ℕ) :
    Except String Output :=
  if ¬(0 < split ∧ split < 1) then
    Except.error "[ERR] --split must be between 0 and 1"
  else if ¬b.hasBBox then
    Except.error "[WARN] bounding_box.txt missing, NSVF will complain."
  else if ¬b.hasIntrinsics then
    Except.error "[ERR] camera_intrinsics.txt not found"
  else if completeViews b = ∅ then
    Except.error "[ERR] No complete (image+pose) views found"
  else
    Except.ok ⟨sample, completeViews b \ sample, true⟩

end TntNsvf

namespace IdrExport

/-- One input batch for src/scripts/to_idr_dataset/to_idr_dataset.py:
which view indices have render, mask and projection files, and whether
`normalization_matrix.json` exists. -/
structure Batch where
  rgb : Finset ℕ
  mask : Finset ℕ
  proj : Finset ℕ
  hasNormalization : Bool

/-- `collect_files`: every index with at least one matching file. -/
def fileMapIndices (b : Batch) : Finset ℕ := b.rgb ∪ b.mask ∪ b.proj

/-- The indices having all three of rgb, mask and projection. -/
def completeViews (b : Batch) : Finset ℕ := b.rgb ∩ b.mask ∩ b.proj

/-- The observable effects of a run of the IDR exporter. -/
structure Run where
  fatal : Bool
  skipped : Finset ℕ
  worldMatKeys : Finset ℕ
  scaleMatKeys : Finset ℕ
  identityScale : Bool

/-- `main` (src/scripts/to_idr_dataset/to_idr_dataset.py): exit fatally
iff `collect_files` found no matching file at all; otherwise skip (with
a warning) every gathered index missing one of rgb/mask/proj, and store
a `world_mat_<idx>` and a `scale_mat_<idx>` for each complete view —
the scale matrix is the identity when no normalization file exists. -/
def run (b : Batch) : Run :=
  if fileMapIndices b = ∅ then
    { fatal := true
      skipped := ∅
      worldMatKeys := ∅
      scaleMatKeys := ∅
      identityScale := !b.hasNormalization }
  else
    { fatal := false
      skipped := fileMapIndices b \ completeViews b
      worldMatKeys := completeViews b
      scaleMatKeys := completeViews b
      identityScale := !b.hasNormalization }

end IdrExport

theorem R_bcam2cv_eq_diagonal :
    CameraExtrinsics.R_bcam2cv = Matrix.diagonal ![1, -1, -1] := by
  ext i j
  fin_cases i <;> fin_cases j <;>
    simp [CameraExtrinsics.R_bcam2cv, Matrix.diagonal,
      Matrix.vecHead, Matrix.vecTail]

/-- C1: for every camera whose evaluated world transform decomposes into
rotation `R` and location `L` (and any raw local transform), the derived
3×4 world-to-camera matrix has rotation part
`diag(1,-1,-1) * Rᵀ` and translation column
`diag(1,-1,-1) * (-(Rᵀ * L))`; it depends only on the evaluated
(`matrix_world`) decomposition, never on the local transform. -/
theorem extrinsics_deriver_formula
    (R : CameraExtrinsics.Mat3) (L ll : CameraExtrinsics.Vec3)
    (lr : CameraExtrinsics.Mat3) :
    (∀ (i j : Fin 3),
      CameraExtrinsics.get_3x4_RT_matrix_from_blender ⟨L, R, ll, lr⟩
          i j.castSucc =
        ((Matrix.diagonal ![1, -1, -1] : CameraExtrinsics.Mat3) *
          R.transpose) i j) ∧
    (∀ i : Fin 3,
      CameraExtrinsics.get_3x4_RT_matrix_from_blender ⟨L, R, ll, lr⟩ i 3 =
        (Matrix.diagonal ![1, -1, -1] : CameraExtrinsics.Mat3).mulVec
          (-(R.transpose.mulVec L)) i) := by
  constructor
  · intro i j
    have hlt : ((j.castSucc : Fin 4) : ℕ) < 3 := j.isLt
    have hj : (⟨((j.castSucc : Fin 4) : ℕ), hlt⟩ : Fin 3) = j := Fin.ext rfl
    simp only [CameraExtrinsics.get_3x4_RT_matrix_from_blender,
      Matrix.of_apply, dif_pos hlt, hj, ← R_bcam2cv_eq_diagonal]
  · intro i
    have hlt : ¬ (((3 : Fin 4) : ℕ) < 3) := by decide
    simp only [CameraExtrinsics.get_3x4_RT_matrix_from_blender,
      Matrix.of_apply, dif_neg hlt, ← R_bcam2cv_eq_diagonal]

/-- C9: the derived intrinsics `fx, fy, cx, cy` are invariant under
doubling `resolution_x`/`resolution_y` while halving the resolution
percentage — both render configurations produce the same result (also
for non-perspective cameras, where both raise the same error). -/
theorem intrinsics_resolution_scale_invariant
    (camd : CameraIntrinsics.CameraData)
    (render : CameraIntrinsics.RenderSettings) :
    CameraIntrinsics.get_calibration_matrix_K_from_blender camd
        (CameraIntrinsics.doubleResHalfScale render) =
      CameraIntrinsics.get_calibration_matrix_K_from_blender camd render := by
  by_cases h : camd.type = CameraIntrinsics.CameraType.PERSP
  · simp only [CameraIntrinsics.get_calibration_matrix_K_from_blender,
      CameraIntrinsics.doubleResHalfScale, h]
    have hx : render.resolution_percentage / 2 / 100 *
        (2 * render.resolution_x) =
        render.resolution_percentage / 100 * render.resolution_x := by ring
    have hy : render.resolution_percentage / 2 / 100 *
        (2 * render.resolution_y) =
        render.resolution_percentage / 100 * render.resolution_y := by ring
    rw [hx, hy]
  · simp [CameraIntrinsics.get_calibration_matrix_K_from_blender, h]

theorem scaleMatFromBox_eq (x_min y_min z_min x_max y_max z_max : ℝ) :
    NormalizationMatrix.scaleMatFromBox x_min y_min z_min x_max y_max
        z_max =
      (let s := 1 / NormalizationMatrix.halfDiagonalOrOne x_min y_min
        z_min x_max y_max z_max
      !![s, 0, 0, 0; 0, s, 0, 0; 0, 0, s, 0; 0, 0, 0, 1]) := by
  simp only [NormalizationMatrix.scaleMatFromBox,
    NormalizationMatrix.halfDiagonalOrOne]
  have h : ∀ a b c : ℝ, a * a + b * b + c * c = a ^ 2 + b ^ 2 + c ^ 2 := by
    intro a b c; ring
  rw [h]

theorem scaleLiteral_diagonal (s : ℝ) :
    (!![s, 0, 0, 0; 0, s, 0, 0; 0, 0, s, 0; 0, 0, 0, 1] :
        NormalizationMatrix.Mat4) =
      Matrix.diagonal ![s, s, s, 1] := by
  ext i j
  fin_cases i <;> fin_cases j <;>
    simp [Matrix.diagonal, Matrix.vecHead, Matrix.vecTail]

theorem applyMat4_scaleMat (s : ℝ) (p : Fin 3 → ℝ) (i : Fin 3) :
    NormalizationMatrix.applyMat4
      !![s, 0, 0, 0; 0, s, 0, 0; 0, 0, s, 0; 0, 0, 0, 1] p i = s * p i := by
  fin_cases i
  · show s * p 0 + 0 * p 1 + 0 * p 2 + 0 = s * p 0
    ring
  · show 0 * p 0 + s * p 1 + 0 * p 2 + 0 = s * p 1
    ring
  · show 0 * p 0 + 0 * p 1 + s * p 2 + 0 = s * p 2
    ring

theorem scaled_corner_center_dist (x_min y_min z_min x_max y_max z_max
    s : ℝ) (e₁ e₂ e₃ : Bool) :
    NormalizationMatrix.sqNorm (fun i =>
      NormalizationMatrix.applyMat4
        !![s, 0, 0, 0; 0, s, 0, 0; 0, 0, s, 0; 0, 0, 0, 1]
        (NormalizationMatrix.boxCorner x_min y_min z_min x_max y_max z_max
          e₁ e₂ e₃) i -
      NormalizationMatrix.applyMat4
        !![s, 0, 0, 0; 0, s, 0, 0; 0, 0, s, 0; 0, 0, 0, 1]
        (NormalizationMatrix.boxCenter x_min y_min z_min x_max y_max z_max)
          i) =
    s ^ 2 * (((x_max - x_min) / 2) ^ 2 + ((y_max - y_min) / 2) ^ 2 +
      ((z_max - z_min) / 2) ^ 2) := by
  simp only [NormalizationMatrix.sqNorm, applyMat4_scaleMat]
  cases e₁ <;> cases e₂ <;> cases e₃ <;>
    simp [NormalizationMatrix.boxCorner, NormalizationMatrix.boxCenter] <;>
    ring

/-- C2 (amended): the normalization matrix is `diag(s, s, s, 1)` with
`s = 1/R`, `R` the half-diagonal (`1.0` for the all-zero-extent box),
and applying it to each of the 8 box corners yields a point within
distance `1.0` of the image of the box center (hence within `1.0` of
the origin when the box is centered there) — but not of the origin for
off-center boxes, as the counterexample shows. -/
theorem normalization_matrix_unit_sphere (x_min y_min z_min x_max y_max
    z_max : ℝ) (e₁ e₂ e₃ : Bool) :
    NormalizationMatrix.scaleMatFromBox x_min y_min z_min x_max y_max
        z_max =
      Matrix.diagonal
        ![1 / NormalizationMatrix.halfDiagonalOrOne x_min y_min z_min
            x_max y_max z_max,
          1 / NormalizationMatrix.halfDiagonalOrOne x_min y_min z_min
            x_max y_max z_max,
          1 / NormalizationMatrix.halfDiagonalOrOne x_min y_min z_min
            x_max y_max z_max, 1] ∧
    NormalizationMatrix.sqNorm (fun i =>
      NormalizationMatrix.applyMat4
        (NormalizationMatrix.scaleMatFromBox x_min y_min z_min x_max
          y_max z_max)
        (NormalizationMatrix.boxCorner x_min y_min z_min x_max y_max
          z_max e₁ e₂ e₃) i -
      NormalizationMatrix.applyMat4
        (NormalizationMatrix.scaleMatFromBox x_min y_min z_min x_max
          y_max z_max)
        (NormalizationMatrix.boxCenter x_min y_min z_min x_max y_max
          z_max) i) ≤ 1 := by
  rw [scaleMatFromBox_eq]
  simp only []
  refine ⟨scaleLiteral_diagonal _, ?_⟩
  rw [scaled_corner_center_dist]
  by_cases hdeg : (x_max - x_min) / 2 ≠ 0 ∨ (y_max - y_min) / 2 ≠ 0 ∨
      (z_max - z_min) / 2 ≠ 0
  · have hSpos : 0 < ((x_max - x_min) / 2) ^ 2 + ((y_max - y_min) / 2) ^ 2 +
        ((z_max - z_min) / 2) ^ 2 := by
      rcases hdeg with h | h | h
      · have := sq_pos_of_ne_zero h
        nlinarith [sq_nonneg ((y_max - y_min) / 2),
          sq_nonneg ((z_max - z_min) / 2)]
      · have := sq_pos_of_ne_zero h
        nlinarith [sq_nonneg ((x_max - x_min) / 2),
          sq_nonneg ((z_max - z_min) / 2)]
      · have := sq_pos_of_ne_zero h
        nlinarith [sq_nonneg ((x_max - x_min) / 2),
          sq_nonneg ((y_max - y_min) / 2)]
    have hhd : NormalizationMatrix.halfDiagonalOrOne x_min y_min z_min
        x_max y_max z_max =
        Real.sqrt (((x_max - x_min) / 2) ^ 2 + ((y_max - y_min) / 2) ^ 2 +
          ((z_max - z_min) / 2) ^ 2) := by
      simp only [NormalizationMatrix.halfDiagonalOrOne, if_pos hdeg]
    rw [hhd]
    rw [div_pow, one_pow, Real.sq_sqrt hSpos.le]
    rw [div_mul_eq_mul_div, one_mul, div_self hSpos.ne']
  · push_neg at hdeg
    obtain ⟨h1, h2, h3⟩ := hdeg
    rw [h1, h2, h3]
    norm_num

/-- C2 counterexample: for the non-degenerate box (9,9,9)–(11,11,11)
the normalization matrix maps the corner (11,11,11) to a point with
squared distance 121 from the origin, far beyond the claimed
`1.0 + tolerance` bound. -/
theorem normalization_matrix_counterexample :
    NormalizationMatrix.sqNorm (fun i =>
      NormalizationMatrix.applyMat4
        (NormalizationMatrix.scaleMatFromBox 9 9 9 11 11 11)
        ![11, 11, 11] i) = 121 ∧
    ¬ ((121 : ℝ) ≤ (1 + 1 / 100) ^ 2) := by
  have hhd : NormalizationMatrix.halfDiagonalOrOne 9 9 9 11 11 11 =
      Real.sqrt 3 := by
    simp only [NormalizationMatrix.halfDiagonalOrOne]
    norm_num
  constructor
  · rw [scaleMatFromBox_eq]
    simp only [hhd, NormalizationMatrix.sqNorm, applyMat4_scaleMat]
    have h3 : Real.sqrt 3 ^ 2 = 3 := Real.sq_sqrt (by norm_num)
    have h11 : ((![11, 11, 11] : Fin 3 → ℝ) 0 = 11) ∧
        ((![11, 11, 11] : Fin 3 → ℝ) 1 = 11) ∧
        ((![11, 11, 11] : Fin 3 → ℝ) 2 = 11) := by
      refine ⟨rfl, rfl, rfl⟩
    rw [h11.1, h11.2.1, h11.2.2]
    have hq : (1 / Real.sqrt 3 * 11) ^ 2 = 121 / 3 := by
      rw [mul_pow, div_pow, one_pow, h3]
      norm_num
    rw [hq]
    norm_num
  · norm_num

/-- C4 (code bug): `re.search(obj.name, exclude)` swaps the pattern and
the string, so the bounding-box plugin skips the object named "Cub"
under exclusion pattern "Cube" (the name, used as the regex, matches
inside the pattern string) even though "Cub" does not match the pattern
"Cube"; with the scene's only object wrongly skipped, no
`bounding_box.txt` is produced.  The plugins' own log message
("matches exclude_regex") and the spec agree that the intended test is
the reverse one. -/
theorem bounding_box_filter_swapped_args :
    ScenePlugins.boundingBoxRun
        [⟨"Cub", 1, fun _ => fun _ => 0⟩] "Cube" none = none ∧
    ScenePlugins.specSkipsObject "Cube" ⟨"Cub", 1, fun _ => fun _ => 0⟩ =
      false ∧
    ScenePlugins.skipsObject "Cube" ⟨"Cub", 1, fun _ => fun _ => 0⟩ =
      true ∧
    ScenePlugins.boundingBoxRun
        [⟨"Cub", 1, fun _ => fun _ => 0⟩] "" none ≠ none := by
  refine ⟨?_, by decide, by decide, ?_⟩
  · decide
  · decide

/-- C5 counterexample: a batch with a masked image and a projection
file for view 0 but no `bounding_box.txt` — the plain NSVF exporter
(src/scripts/to_nsvf_dataset/to_nsvf_dataset.py) does NOT terminate
fatally: it logs a copy warning and still writes the rgb image and
pose, refuting the claim that a missing bounding-box source aborts
every NSVF export. -/
theorem nsvf_missing_bbox_not_fatal_counterexample :
    (ScriptsNsvf.run ⟨true, false, {0}, {0}⟩).fatal = false ∧
    (ScriptsNsvf.run ⟨true, false, {0}, {0}⟩).bboxCopied = false ∧
    (ScriptsNsvf.run ⟨true, false, {0}, {0}⟩).copyWarnings = 1 ∧
    (ScriptsNsvf.run ⟨true, false, {0}, {0}⟩).poseWritten = {0} := by
  refine ⟨rfl, rfl, rfl, ?_⟩
  decide

/-- C5 (amended): the Tanks&Temples NSVF exporter aborts fatally when
the bounding-box source file is missing, while the plain NSVF exporter
merely warns and continues; in both, a missing per-view projection file
only skips that view's pose. -/
theorem nsvf_missing_bbox_fatality_split :
    (∀ (b : TntNsvf.Batch) (split : ℚ) (sample : Finset ℕ),
      0 < split → split < 1 → b.hasBBox = false →
      TntNsvf.main b split sample =
        Except.error "[WARN] bounding_box.txt missing, NSVF will complain.") ∧
    (∀ b : ScriptsNsvf.Batch, b.hasBBox = false → b.maskIdx ≠ ∅ →
      (ScriptsNsvf.run b).fatal = false ∧
      (ScriptsNsvf.run b).rgbWritten = b.maskIdx ∧
      (ScriptsNsvf.run b).poseWritten = b.maskIdx ∩ b.projIdx) ∧
    (∀ (b : ScriptsNsvf.Batch) (idx : ℕ), idx ∈ b.maskIdx →
      idx ∉ b.projIdx → idx ∉ (ScriptsNsvf.run b).poseWritten) ∧
    (∀ (b : TntNsvf.Batch) (idx : ℕ), idx ∉ b.projIdx →
      idx ∉ TntNsvf.completeViews b) := by
  refine ⟨?_, ?_, ?_, ?_⟩
  · intro b split sample h0 h1 hb
    rw [TntNsvf.main, if_neg (by simp [h0, h1]), if_pos (by simp [hb])]
  · intro b hb hne
    rw [ScriptsNsvf.run, if_neg hne]
    exact ⟨rfl, rfl, rfl⟩
  · intro b idx hm hp
    rw [ScriptsNsvf.run]
    split
    · simp
    · simp [hp]
  · intro b idx hp
    simp [TntNsvf.completeViews, hp]

/-- C6: for the batch with views 0, 1, 2 where view 1 lacks its
pose file, the compat COLMAP exporter writes exactly two `images.txt`
blocks — image ids 0 and 1 for views 0 and 2 in ascending order —
logs exactly one skip warning, and writes an empty `points3D.txt`. -/
theorem colmap_missing_view_scenario :
    ((CompatColmap.main ⟨{0, 1, 2}, ∅, {0, 2}, fun _ => 0⟩).entries.map
      (fun e => (e.image_id, e.viewIdx)) = [(0, 0), (1, 2)]) ∧
    (CompatColmap.main ⟨{0, 1, 2}, ∅, {0, 2}, fun _ => 0⟩).skipWarnings
      = 1 ∧
    (CompatColmap.main ⟨{0, 1, 2}, ∅, {0, 2}, fun _ => 0⟩).points3D
      = [] := by
  have hsort : CompatColmap.gatherIndices
      ⟨{0, 1, 2}, ∅, {0, 2}, fun _ => 0⟩ = [0, 1, 2] := by
    have hu : ({0, 1, 2} : Finset ℕ) ∪ ∅ ∪ {0, 2} = {0, 1, 2} := by decide
    rw [CompatColmap.gatherIndices]
    show (({0, 1, 2} : Finset ℕ) ∪ ∅ ∪ {0, 2}).sort (· ≤ ·) = [0, 1, 2]
    have h1 : ∀ b ∈ ({1, 2} : Finset ℕ), 0 ≤ b := by decide
    have h2 : (0 : ℕ) ∉ ({1, 2} : Finset ℕ) := by decide
    have h3 : ∀ b ∈ ({2} : Finset ℕ), 1 ≤ b := by decide
    have h4 : (1 : ℕ) ∉ ({2} : Finset ℕ) := by decide
    rw [hu, Finset.sort_insert _ h1 h2, Finset.sort_insert _ h3 h4,
      Finset.sort_singleton]
  refine ⟨?_, ?_, rfl⟩ <;>
    simp [CompatColmap.main, hsort, CompatColmap.processViews,
      Finset.mem_insert]

/-- C7 counterexample: a batch holding only `0_render.png` has zero
complete views, yet the IDR exporter does not fail — `collect_files`
found a matching file, so the fatal guard passes and the run ends
successfully with an empty archive, refuting the claimed
"fatal iff zero complete views" equivalence. -/
theorem idr_zero_complete_views_not_fatal :
    IdrExport.completeViews ⟨{0}, ∅, ∅, false⟩ = ∅ ∧
    (IdrExport.run ⟨{0}, ∅, ∅, false⟩).fatal = false ∧
    (IdrExport.run ⟨{0}, ∅, ∅, false⟩).worldMatKeys = ∅ := by
  refine ⟨by decide, ?_, ?_⟩ <;> decide

/-- C7 (amended): the IDR exporter skips, with a warning, every
gathered view index missing any of rgb, mask or projection, and writes
one `world_mat` and one `scale_mat` per complete view; it terminates
fatally iff no file of any of the three kinds matched at all — a batch
with some files but zero complete views still succeeds (with an empty
archive). -/
theorem idr_export_skip_and_fatal_condition (b : IdrExport.Batch) :
    ((IdrExport.run b).fatal = true ↔ IdrExport.fileMapIndices b = ∅) ∧
    ((IdrExport.run b).fatal = false →
      (IdrExport.run b).skipped =
        IdrExport.fileMapIndices b \ IdrExport.completeViews b ∧
      (IdrExport.run b).worldMatKeys = IdrExport.completeViews b ∧
      (IdrExport.run b).scaleMatKeys = IdrExport.completeViews b) := by
  rw [IdrExport.run]
  split
  · next h => simp [h]
  · next h => simp [h]

/-- C7 witness: instantiating the amended statement on a concrete
complete one-view batch. -/
theorem idr_export_skip_and_fatal_condition_witness :
    (IdrExport.run ⟨{0}, {0}, {0}, true⟩).worldMatKeys =
      IdrExport.completeViews ⟨{0}, {0}, {0}, true⟩ :=
  ((idr_export_skip_and_fatal_condition ⟨{0}, {0}, {0}, true⟩).2
    (by decide)).2.1

/-- C5 witness: instantiating the amended statement's conjuncts on
concrete batches. -/
theorem nsvf_missing_bbox_fatality_split_witness :
    TntNsvf.main ⟨false, true, {0}, {0}⟩ (7 / 10) ∅ =
      Except.error "[WARN] bounding_box.txt missing, NSVF will complain."
      ∧ (ScriptsNsvf.run ⟨true, false, {0}, {0}⟩).fatal = false :=
  ⟨nsvf_missing_bbox_fatality_split.1 ⟨false, true, {0}, {0}⟩ (7 / 10) ∅
      (by norm_num) (by norm_num) rfl,
    (nsvf_missing_bbox_fatality_split.2.1 ⟨true, false, {0}, {0}⟩ rfl
      (by decide)).1⟩

/-- C8: with bounding box and intrinsics present, 10 complete views and
split fraction 7/10, the Tanks&Temples NSVF exporter draws
`n_train = round(0.7 * 10) = 7` indices without replacement (modelled
by any `sample` satisfying `random.sample`'s contract), and the
resulting train and test sets are disjoint with sizes summing to 10. -/
theorem nsvf_train_test_split (b : TntNsvf.Batch) (sample : Finset ℕ)
    (hb : b.hasBBox = true) (hi : b.hasIntrinsics = true)
    (hcard : (TntNsvf.completeViews b).card = 10)
    (hsub : sample ⊆ TntNsvf.completeViews b)
    (hsamp : sample.card = TntNsvf.nTrain b (7 / 10)) :
    TntNsvf.nTrain b (7 / 10) = 7 ∧
    ∃ out, TntNsvf.main b (7 / 10) sample = Except.ok out ∧
      out.train.card = 7 ∧ Disjoint out.train out.test ∧
      out.train.card + out.test.card = 10 := by
  have hn : TntNsvf.nTrain b (7 / 10) = 7 := by
    rw [TntNsvf.nTrain, hcard]
    norm_num [pyRound]
    rfl
  refine ⟨hn, ⟨sample, TntNsvf.completeViews b \ sample, true⟩, ?_, ?_,
    Finset.disjoint_sdiff, ?_⟩
  · have hne : ¬ TntNsvf.completeViews b = ∅ := by
      intro h
      rw [h] at hcard
      simp at hcard
    rw [TntNsvf.main, if_neg (by norm_num), if_neg (by simp [hb]),
      if_neg (by simp [hi]), if_neg (by simpa using hne)]
  · rw [hsamp, hn]
  · rw [Finset.card_sdiff hsub, hsamp, hn, hcard]

/-- C8 witness: the split statement instantiated on a concrete batch of
10 complete views with the sample `range 7`. -/
theorem nsvf_train_test_split_witness :
    TntNsvf.nTrain ⟨true, true, Finset.range 10, Finset.range 10⟩
        (7 / 10) = 7 ∧
    ∃ out, TntNsvf.main ⟨true, true, Finset.range 10, Finset.range 10⟩
        (7 / 10) (Finset.range 7) = Except.ok out ∧
      out.train.card = 7 ∧ Disjoint out.train out.test ∧
      out.train.card + out.test.card = 10 :=
  nsvf_train_test_split ⟨true, true, Finset.range 10, Finset.range 10⟩
    (Finset.range 7) rfl rfl (by decide) (by decide)
    (by
      simp only [TntNsvf.nTrain, TntNsvf.completeViews, Finset.inter_self,
        Finset.card_range]
      norm_num [pyRound]
      rfl)

/-- C10: in the plain NSVF exporter, the rgb image of a view with a
masked image is copied before the projection file is checked, so a view
whose projection file is missing still appears under `rgb/` while its
pose is skipped — the `rgb/` and `pose/` listings then differ. -/
theorem nsvf_rgb_copied_before_pose_check (b : ScriptsNsvf.Batch)
    (idx : ℕ) (hm : idx ∈ b.maskIdx) (hp : idx ∉ b.projIdx) :
    (ScriptsNsvf.run b).fatal = false ∧
    (ScriptsNsvf.run b).rgbWritten = b.maskIdx ∧
    idx ∈ (ScriptsNsvf.run b).rgbWritten ∧
    idx ∉ (ScriptsNsvf.run b).poseWritten ∧
    idx ∈ (ScriptsNsvf.run b).skipWarnings := by
  have hne : b.maskIdx ≠ ∅ := Finset.ne_empty_of_mem hm
  rw [ScriptsNsvf.run, if_neg hne]
  refine ⟨rfl, rfl, hm, ?_, ?_⟩
  · show idx ∉ b.maskIdx ∩ b.projIdx
    simp [hp]
  · show idx ∈ b.maskIdx \ b.projIdx
    simp [hm, hp]

/-- C10 witness: the statement instantiated on a batch whose view 0 has
a masked image but no projection file. -/
theorem nsvf_rgb_copied_before_pose_check_witness :
    0 ∈ (ScriptsNsvf.run ⟨true, true, {0}, ∅⟩).rgbWritten ∧
    0 ∉ (ScriptsNsvf.run ⟨true, true, {0}, ∅⟩).poseWritten :=
  ⟨(nsvf_rgb_copied_before_pose_check ⟨true, true, {0}, ∅⟩ 0 (by decide)
      (by decide)).2.2.1,
    (nsvf_rgb_copied_before_pose_check ⟨true, true, {0}, ∅⟩ 0 (by decide)
      (by decide)).2.2.2.1⟩

theorem load_extrinsics_rot (m : CompatColmap.Mat3x4) :
    (CompatColmap.load_extrinsics m).submatrix Fin.castSucc Fin.castSucc =
      CompatColmap.rotOf m := by
  ext i j
  have h : ((Fin.castSucc i : Fin 4) : ℕ) < 3 := i.isLt
  simp only [Matrix.submatrix_apply, CompatColmap.load_extrinsics,
    Matrix.of_apply, dif_pos h, CompatColmap.rotOf, id]
  exact congrFun (congrArg m (Fin.ext rfl)) _

theorem load_extrinsics_trans (m : CompatColmap.Mat3x4) (i : Fin 3) :
    CompatColmap.load_extrinsics m (Fin.castSucc i) 3 = m i 3 := by
  have h : ((Fin.castSucc i : Fin 4) : ℕ) < 3 := i.isLt
  simp only [CompatColmap.load_extrinsics, Matrix.of_apply, dif_pos h]
  exact congrFun (congrArg m (Fin.ext rfl)) 3

theorem processViews_entry_fields (b : CompatColmap.Batch) :
    ∀ (views : List ℕ) (k : ℕ) (e : CompatColmap.ImageEntry),
      e ∈ (CompatColmap.processViews b views k).1 →
      e.qvec = CompatColmap.qvec_from_matrix
        (CompatColmap.rotOf (b.extrMat e.viewIdx)) ∧
      e.tvec = CompatColmap.transOf (b.extrMat e.viewIdx) := by
  intro views
  induction views with
  | nil =>
    intro k e he
    simp [CompatColmap.processViews] at he
  | cons idx rest ih =>
    intro k e he
    rw [CompatColmap.processViews] at he
    by_cases hc : idx ∈ b.rgb ∧ idx ∈ b.extr
    · rw [if_pos hc] at he
      simp only [List.mem_cons] at he
      rcases he with h | h
      · subst h
        refine ⟨?_, ?_⟩
        · show CompatColmap.qvec_from_matrix
            ((CompatColmap.load_extrinsics (b.extrMat idx)).submatrix
              Fin.castSucc Fin.castSucc) = _
          rw [load_extrinsics_rot]
        · funext i
          show CompatColmap.load_extrinsics (b.extrMat idx)
            (Fin.castSucc i) 3 = _
          rw [load_extrinsics_trans]
          rfl
      · exact ih (k + 1) e h
    · rw [if_neg hc] at he
      exact ih k e he

/-- C3 (amended): for the compat COLMAP exporter — the variant that
reads the per-view world-to-camera extrinsics files — re-reading any
written `images.txt` block recovers exactly the quaternion
`qvec_from_matrix(R)` and the translation `t` computed directly from
that view's input extrinsics `[R|t]` (exactly, in the real-number
model, so in particular within tolerance).  The scripts variant writes
`-R·t` in place of `t` and does not satisfy the original claim, as the
counterexample shows. -/
theorem colmap_images_roundtrip (b : CompatColmap.Batch)
    (e : CompatColmap.ImageEntry)
    (he : e ∈ (CompatColmap.main b).entries) :
    CompatColmap.parseQvecTvec (CompatColmap.serializeEntry e) =
      some (CompatColmap.qvec_from_matrix
          (CompatColmap.rotOf (b.extrMat e.viewIdx)),
        CompatColmap.transOf (b.extrMat e.viewIdx)) := by
  obtain ⟨hq, ht⟩ := processViews_entry_fields b
    (CompatColmap.gatherIndices b) 0 e he
  rw [CompatColmap.serializeEntry, CompatColmap.parseQvecTvec, ← hq, ← ht]
  have h4 : ![e.qvec 0, e.qvec 1, e.qvec 2, e.qvec 3] = e.qvec := by
    funext i
    fin_cases i <;> rfl
  have h3 : ![e.tvec 0, e.tvec 1, e.tvec 2] = e.tvec := by
    funext i
    fin_cases i <;> rfl
  rw [h4, h3]

theorem sampleBatch_entries :
    (CompatColmap.main CompatColmap.sampleBatch).entries =
      [CompatColmap.sampleEntry] := by
  have hsort : CompatColmap.gatherIndices CompatColmap.sampleBatch =
      [0] := by
    have hu : ({0} : Finset ℕ) ∪ ∅ ∪ {0} = {0} := by decide
    show (({0} : Finset ℕ) ∪ ∅ ∪ {0}).sort (· ≤ ·) = [0]
    rw [hu, Finset.sort_singleton]
  show (CompatColmap.processViews CompatColmap.sampleBatch
    (CompatColmap.gatherIndices CompatColmap.sampleBatch) 0).1 = _
  rw [hsort, CompatColmap.processViews,
    if_pos (by decide : (0 : ℕ) ∈ CompatColmap.sampleBatch.rgb ∧
      (0 : ℕ) ∈ CompatColmap.sampleBatch.extr),
    CompatColmap.processViews]
  rfl

/-- C3 witness: the round-trip statement instantiated on the one-view
sample batch and its written entry. -/
theorem colmap_images_roundtrip_witness :
    CompatColmap.parseQvecTvec
        (CompatColmap.serializeEntry CompatColmap.sampleEntry) =
      some (CompatColmap.qvec_from_matrix (CompatColmap.rotOf
          (CompatColmap.sampleBatch.extrMat
            CompatColmap.sampleEntry.viewIdx)),
        CompatColmap.transOf (CompatColmap.sampleBatch.extrMat
          CompatColmap.sampleEntry.viewIdx)) :=
  colmap_images_roundtrip CompatColmap.sampleBatch CompatColmap.sampleEntry
    (by rw [sampleBatch_entries]; exact List.mem_singleton_self _)

/-- C3 counterexample: the scripts COLMAP exporter
(src/scripts/to_colmap/to_colmap.py), fed the 3×4 matrix
`[I | (1,0,0)]`, writes translation component `-1` into `images.txt`
while the matrix's own translation component is `1` — re-reading does
not recover the translation computed directly from the input
world-to-camera matrix. -/
theorem colmap_scripts_tvec_counterexample :
    (ScriptsColmap.qvec_tvec_from_matrix
        (ScriptsColmap.load_inverted_projection
          !![1, 0, 0, 1; 0, 1, 0, 0; 0, 0, 1, 0])).2 0 = -1 ∧
    CompatColmap.transOf !![1, 0, 0, 1; 0, 1, 0, 0; 0, 0, 1, 0] 0 = 1 ∧
    ((-1 : ℝ) ≠ 1) := by
  refine ⟨?_, by norm_num [CompatColmap.transOf], by norm_num⟩
  show -((ScriptsColmap.load_inverted_projection
      !![1, 0, 0, 1; 0, 1, 0, 0; 0, 0, 1, 0]).submatrix Fin.castSucc
        Fin.castSucc).mulVec (fun i =>
      ScriptsColmap.load_inverted_projection
        !![1, 0, 0, 1; 0, 1, 0, 0; 0, 0, 1, 0] (Fin.castSucc i) 3) 0 = -1
  simp only [Pi.neg_apply, Matrix.mulVec, Matrix.dotProduct,
    Fin.sum_univ_three, Matrix.submatrix_apply,
    ScriptsColmap.load_inverted_projection, Matrix.of_apply]
  norm_num
